import Mathlib

/-!
Verification development for the CoachAI repository.

Shallow embedding of the core of the repository:
  - src/coachai/clients/cohere_client.py  (embedding provider adapter)
  - src/coachai/services/coach_service.py (retrieval, prompt assembly,
    interaction recording)

External collaborators (the Supabase knowledge store and the generative
model) are modelled through an oracle of call outcomes: each external call
either returns a value or raises, and the embedding threads the store
state explicitly, reproducing the try/except structure of the source.
Machine floats of the source carry only similarity scores that are
formatted into prompts; they are modelled as rationals.
-/

/-- Read-only configuration surface consumed by the core
(coachai.core.config.Config). -/
structure Config where
  TOP_K : Int
  MIN_PIXELS : Nat
  MAX_PIXELS : Nat
  SUPABASE_STORAGE_BUCKET : String
  MODEL_NAME : String
  EMBED_MODEL_NAME : String
  PGVECTOR_DIMENSION : Nat
deriving DecidableEq

/-- Errors raised by CohereClient.embed (cohere_client.py lines 33 and 45).
The source raises RuntimeError in both places; the two messages are the
ProviderUnavailable and DimensionMismatch failures of the spec. -/
inductive EmbedError where
  | providerUnavailable
  | dimensionMismatch (got : Nat) (expected : Nat)
deriving DecidableEq

/-- The Cohere client wrapper (cohere_client.py). The `available` field is
the truth of `self._client is not None`: it is set externally by the
constructor, which needs both an api key and an importable cohere module. -/
structure CohereClient where
  apiKey : Option String
  model : String
  available : Bool
deriving DecidableEq

/-- cohere_client.py line 29: `is_available` is client non-nullity. -/
def CohereClient.is_available (c : CohereClient) : Bool := c.available

/-- cohere_client.py line 43: getattr with default 384, then Python
`or 384`. A configured value of 0 is falsy in Python and is replaced
by 384. -/
def effectiveDim (cfg : Config) : Nat :=
  if cfg.PGVECTOR_DIMENSION = 0 then 384 else cfg.PGVECTOR_DIMENSION

/-- cohere_client.py lines 31-46: CohereClient.embed. `providerVectors` is
the sequence of vectors the underlying SDK returned (the two SDK call
shapes of lines 35-41 produce the same vectors and are abstracted into
this one argument). The dimension check of lines 43-45 compares the first
vector against the effective configured width. -/
def CohereClient.embed (c : CohereClient) (cfg : Config) (texts : List String)
    (providerVectors : List (List ℚ)) : Except EmbedError (List (List ℚ)) :=
  if !c.is_available then .error .providerUnavailable
  else
    match providerVectors with
    | [] => .ok []
    | v :: rest =>
      if v.length ≠ effectiveDim cfg then
        .error (.dimensionMismatch v.length (effectiveDim cfg))
      else .ok (v :: rest)

/-- A retrieved knowledge entry as consumed by the service layer: a dict
with id, topic, content and an optional similarity score. -/
structure RetEntry where
  id : String
  topic : String
  content : String
  similarity : Option ℚ
deriving DecidableEq

/-- Sort key used by the descending-similarity order of retrieval. -/
def simKey (e : RetEntry) : ℚ := e.similarity.getD 0

/-- Descending-similarity relation on retrieved entries. -/
def simDescRel (a b : RetEntry) : Prop := simKey b ≤ simKey a

instance : DecidableRel simDescRel := fun a b =>
  inferInstanceAs (Decidable (simKey b ≤ simKey a))

instance : IsTotal RetEntry simDescRel :=
  ⟨fun a b => le_total (simKey b) (simKey a)⟩

instance : IsTrans RetEntry simDescRel :=
  ⟨fun _ _ _ h1 h2 => le_trans h2 h1⟩

/-- Modelled from the spec: `KnowledgeRepository.search` (the file
coachai/repositories/knowledge_repository.py is not among the sources;
only its callers are). Spec section 4.3: embeds the query via the adapter
and, on embedding failure, returns an empty sequence rather than
propagating; otherwise delegates to the knowledge store, which returns
the top-k entries ordered by descending similarity. The store ranking is
modelled as sorting the candidate entries (already carrying their
similarity to this query) and taking the first top-k. -/
def knowledgeSearch (entries : List RetEntry) (embedOk : Bool)
    (query : String) (topK : Int) : List RetEntry :=
  if embedOk then (entries.insertionSort simDescRel).take topK.toNat else []

/-- Python `x or d` for an optional integer: None and 0 are falsy and are
replaced by the default. -/
def pyOrInt (x : Option Int) (d : Int) : Int :=
  match x with
  | none => d
  | some v => if v = 0 then d else v

/-- coach_service.py lines 29-30: CoachService.find_relevant. The effective
top_k is `top_k or self.config.TOP_K`. -/
def findRelevant (cfg : Config) (entries : List RetEntry) (embedOk : Bool)
    (query : String) (topK : Option Int) : List RetEntry :=
  knowledgeSearch entries embedOk query (pyOrInt topK cfg.TOP_K)

/-- Decimal digit character. -/
def digitChar (d : Nat) : Char := Char.ofNat (48 + d)

/-- Zero-padded four-digit rendering of a natural number below 10000. -/
def pad4 (m : Nat) : String :=
  String.mk [digitChar (m / 1000), digitChar (m / 100 % 10),
             digitChar (m / 10 % 10), digitChar (m % 10)]

/-- Fixed-point rendering of a scaled nonnegative value: n counts
ten-thousandths. -/
def fmt4nat (n : Nat) : String :=
  toString (n / 10000) ++ "." ++ pad4 (n % 10000)

/-- Python `f-string` formatting of a similarity to 4 decimal places
(coach_service.py line 46), with floats modelled as rationals and the
rounding at the fourth decimal modelled as round-half-up. -/
def fmt4 (x : ℚ) : String :=
  let n : Int := ⌊x * 10000 + 1/2⌋
  if n < 0 then "-" ++ fmt4nat n.natAbs else fmt4nat n.toNat

/-- coach_service.py line 46: the similarity string is the 4-decimal
rendering, or N/A when the similarity is absent. -/
def simStr (s : Option ℚ) : String :=
  match s with
  | none => "N/A"
  | some x => fmt4 x

/-- coach_service.py line 47: the per-entry block of the retrieved-documents
section. -/
def entryLine (e : RetEntry) : String :=
  "ID: " ++ e.id ++ "\nTopic: " ++ e.topic ++ "\nSimilarity: " ++
    simStr e.similarity ++ "\n" ++ e.content ++ "\n---"

/-- Python `sep.join(lines)`. -/
def joinSep (sep : String) : List String → String
  | [] => ""
  | [s] => s
  | s :: t :: r => s ++ sep ++ joinSep sep (t :: r)

/-- coach_service.py lines 39-50: the retrieved-documents section of the
explanation prompt. -/
def retrievedSection (rel : List RetEntry) : String :=
  if rel.isEmpty then "Retrieved documents: none available."
  else "Retrieved documents:\n" ++ joinSep "\n" (rel.map entryLine)

/-- coach_service.py line 52: the system prompt of generate_explanation. -/
def systemPrompt : String :=
  "You are an expert learning coach with advanced visual analysis capabilities. Use the retrieved documents to ground answers and cite document IDs when relevant."

/-- coach_service.py line 53: the instruction tail of the user prompt. -/
def explTail : String :=
  "\n\nProvide a clear, educational explanation that directly uses the retrieved documents."

/-- coach_service.py line 53: the user prompt of generate_explanation. -/
def userPrompt (query : String) (rel : List RetEntry) : String :=
  retrievedSection rel ++ "\n\nQuestion: " ++ query ++ explTail

/-- A typed part of a user-turn content list: an image part carries the
pixel-budget resizing hints, a text part carries a prompt string. -/
inductive ContentPart where
  | image (img : String) (minPixels maxPixels : Nat)
  | text (t : String)
deriving DecidableEq

/-- Message content: the system turn carries a plain string, the user turn
carries a list of typed parts (coach_service.py lines 66-69). -/
inductive MessageContent where
  | str (s : String)
  | parts (ps : List ContentPart)
deriving DecidableEq

/-- A chat message with a role. -/
structure Message where
  role : String
  content : MessageContent
deriving DecidableEq

/-- coach_service.py lines 55-62: the optional leading image part of the
user turn, with the configured pixel-budget hints. -/
def imageParts (cfg : Config) (image : Option String) : List ContentPart :=
  match image with
  | some im => [.image im cfg.MIN_PIXELS cfg.MAX_PIXELS]
  | none => []

/-- coach_service.py lines 39-69: the assembled prompt of
generate_explanation, given the resolved retrieved entries. -/
def buildMessages (cfg : Config) (query : String) (rel : List RetEntry)
    (image : Option String) : List Message :=
  [⟨"system", .str systemPrompt⟩,
   ⟨"user", .parts (imageParts cfg image ++ [.text (userPrompt query rel)])⟩]

/-- Naive character-list prefix test. -/
def isPrefOfCL : List Char → List Char → Bool
  | [], _ => true
  | _ :: _, [] => false
  | a :: as, b :: bs => a == b && isPrefOfCL as bs

/-- Naive character-list substring scan. -/
def containsCL (pat : List Char) : List Char → Bool
  | [] => isPrefOfCL pat []
  | s :: rest => isPrefOfCL pat (s :: rest) || containsCL pat rest

/-- Substring test on strings, by scanning the character data. -/
def strContainsSub (s pat : String) : Bool := containsCL pat.data s.data

/-- Metadata map back-filled onto an attachment row
(coach_service.py lines 161-167). -/
structure AttachMeta where
  source : String
  queryId : String
  userId : String
  index : Nat
  contentType : Option String
deriving DecidableEq

/-- An Attachment row of the knowledge store. Created by upload_attachment
with a null query_id and null metadata; both are back-filled once the
owning UserQuery id is known. -/
structure AttachmentRow where
  id : Nat
  ownerUserId : String
  bucket : String
  storagePath : String
  contentType : String
  queryId : Option Nat
  metadata : Option AttachMeta
deriving DecidableEq

/-- A UserQuery row (coach_service.py line 152). -/
structure UserQueryRow where
  id : Nat
  userId : String
  textQuery : String
  imageAttachmentIds : List Nat
deriving DecidableEq

/-- An AnswerRecord row (coach_service.py lines 121-128). -/
structure AnswerRow where
  questionId : Option Nat
  userId : String
  userAnswer : String
  modelAnswer : String
  grade : Option Nat
  feedback : Option String
deriving DecidableEq

/-- A GeneratedQuestion row (coach_service.py line 186). -/
structure GenQRow where
  id : Nat
  lessonId : Option String
  queryId : Option Nat
  authorModel : String
  questionText : String
deriving DecidableEq

/-- A derived embedding-index row (coach_service.py line 176). -/
structure EmbRow where
  sourceTable : String
  sourceId : Nat
  metaSource : String
deriving DecidableEq

/-- The knowledge store state: one list of rows per table, plus a fresh-id
counter standing for the identifiers the store mints on insert. -/
structure Store where
  attachments : List AttachmentRow
  userQueries : List UserQueryRow
  answers : List AnswerRow
  generatedQuestions : List GenQRow
  embeddings : List EmbRow
  nextId : Nat
deriving DecidableEq

/-- Outcome of one external call: a returned value, or a raised
exception. -/
inductive CallResult (α : Type) where
  | ok (a : α)
  | err
deriving DecidableEq

/-- Result of a fallible computation over the store: a value together with
the final store, or an exception escaping with the store as mutated so
far. -/
inductive TryRes (α : Type) where
  | ok (a : α) (st : Store)
  | exn (st : Store)
deriving DecidableEq

/-- Oracle fixing the outcome of every external call a single service call
makes: upload and back-fill outcomes are indexed by position, the
generated text is a function of the prompt messages, and uploadPath gives
the uuid4 hex of each uploaded object name. -/
structure Oracle where
  getSupabase : CallResult Bool
  upload : Nat → CallResult Bool
  uploadPath : Nat → String
  embedTexts : CallResult Unit
  insertUserQuery : CallResult Bool
  updateAttachment : Nat → CallResult Unit
  addEmbedding : CallResult Unit
  insertAnswer : CallResult Unit
  insertGenerated : CallResult Bool
  searchRaises : Bool
  generateCall : List Message → CallResult String

/-- coach_service.py line 166 and 143: `content_types[i] if content_types
and i < len(content_types) else ...` without the default. -/
def ctAt (cts : Option (List String)) (i : Nat) : Option String :=
  match cts with
  | some l => l[i]?
  | none => none

/-- The attachment row created by the i-th upload of store_user_query
(coach_service.py lines 139-145), with the store-minted id rid. -/
def mkUploadRow (cfg : Config) (o : Oracle) (uid : String)
    (cts : Option (List String)) (i rid : Nat) : AttachmentRow :=
  { id := rid
    ownerUserId := uid
    bucket := cfg.SUPABASE_STORAGE_BUCKET
    storagePath := "attachments/" ++ o.uploadPath i ++ "_" ++ toString i ++ ".png"
    contentType := (ctAt cts i).getD "image/png"
    queryId := none
    metadata := none }

/-- The upload loop of store_user_query (coach_service.py lines 138-145):
uploads each image in order; a raised upload escapes the loop, an upload
returning no id is skipped, a successful upload creates an attachment row
with a null query_id and contributes its id to attachment_ids. -/
def runUploads (cfg : Config) (o : Oracle) (uid : String)
    (cts : Option (List String)) : List String → Nat → Store → TryRes (List Nat)
  | [], _, st => .ok [] st
  | _ :: rest, i, st =>
    match o.upload i with
    | .err => .exn st
    | .ok false => runUploads cfg o uid cts rest (i + 1) st
    | .ok true =>
      let row := mkUploadRow cfg o uid cts i st.nextId
      match runUploads cfg o uid cts rest (i + 1)
          { st with attachments := st.attachments ++ [row],
                    nextId := st.nextId + 1 } with
      | .ok ids st2 => .ok (st.nextId :: ids) st2
      | .exn st2 => .exn st2

/-- The back-filled value of one attachment row (coach_service.py
lines 161-168): query_id set and metadata carrying source, query id, user
id, the positional index within attachment_ids, and the content type at
that index. -/
def fillRow (q : Nat) (uid : String) (cts : Option (List String)) (idx : Nat)
    (r : AttachmentRow) : AttachmentRow :=
  { r with queryId := some q
           metadata := some { source := "user_query", queryId := toString q,
                              userId := uid, index := idx,
                              contentType := ctAt cts idx } }

/-- The back-fill loop of store_user_query (coach_service.py
lines 158-173): updates each collected attachment id in order; a failing
update is logged and skipped (the inner try/except), never raised. -/
def backfillAll (o : Oracle) (q : Nat) (uid : String)
    (cts : Option (List String)) : List Nat → Nat → Store → Store
  | [], _, st => st
  | aid :: rest, idx, st =>
    let st1 :=
      match o.updateAttachment idx with
      | .err => st
      | .ok _ =>
        { st with attachments :=
            st.attachments.map fun r => if r.id = aid then fillRow q uid cts idx r else r }
    backfillAll o q uid cts rest (idx + 1) st1

/-- coach_service.py lines 149-155: the UserQuery insert. Only attempted
when a store connection exists; a falsy insert result leaves qid null. -/
def insertQueryPhase (o : Oracle) (sup : Bool) (uid tq : String)
    (ids : List Nat) (st : Store) : TryRes (Option Nat) :=
  if sup then
    match o.insertUserQuery with
    | .err => .exn st
    | .ok false => .ok none st
    | .ok true =>
      let row : UserQueryRow :=
        { id := st.nextId, userId := uid, textQuery := tq,
          imageAttachmentIds := ids }
      .ok (some st.nextId)
        { st with userQueries := st.userQueries ++ [row], nextId := st.nextId + 1 }
  else .ok none st

/-- coach_service.py lines 135-180 before the outer exception handler:
upload attachments, embed the query text, insert the UserQuery row,
back-fill the attachments, and write the derived embedding-index row. -/
def storeUserQueryRaw (cfg : Config) (o : Oracle) (uid tq : String)
    (images : List String) (cts : Option (List String)) (st : Store) :
    TryRes (Option Nat) :=
  match runUploads cfg o uid cts images 0 st with
  | .exn st1 => .exn st1
  | .ok ids st1 =>
    match o.embedTexts with
    | .err => .exn st1
    | .ok _ =>
      match o.getSupabase with
      | .err => .exn st1
      | .ok sup =>
        match insertQueryPhase o sup uid tq ids st1 with
        | .exn st2 => .exn st2
        | .ok none st2 => .ok none st2
        | .ok (some q) st2 =>
          let st3 := backfillAll o q uid cts ids 0 st2
          match o.addEmbedding with
          | .err => .exn st3
          | .ok _ =>
            .ok (some q)
              { st3 with embeddings := st3.embeddings ++
                  [{ sourceTable := "user_queries", sourceId := q,
                     metaSource := "user_query" }] }

/-- coach_service.py lines 135-180: CoachService.store_user_query. The
outer try/except turns any raised exception into a null return. -/
def storeUserQuery (cfg : Config) (o : Oracle) (uid tq : String)
    (images : List String) (cts : Option (List String)) (st : Store) :
    Option Nat × Store :=
  match storeUserQueryRaw cfg o uid tq images cts st with
  | .ok q st2 => (q, st2)
  | .exn st2 => (none, st2)

/-- coach_service.py lines 182-190: CoachService.store_generated_question.
No try/except of its own: a raised insert escapes to the caller. -/
def storeGeneratedQuestionRaw (o : Oracle) (lessonId : Option String)
    (queryId : Option Nat) (questionText authorModel : String) (st : Store) :
    TryRes (Option Nat) :=
  match o.getSupabase with
  | .err => .exn st
  | .ok sup =>
    if !sup then .ok none st
    else
      match o.insertGenerated with
      | .err => .exn st
      | .ok false => .ok none st
      | .ok true =>
        let row : GenQRow :=
          { id := st.nextId, lessonId := lessonId, queryId := queryId,
            authorModel := authorModel, questionText := questionText }
        .ok (some st.nextId)
          { st with generatedQuestions := st.generatedQuestions ++ [row],
                    nextId := st.nextId + 1 }

/-- coach_service.py line 110: the per-entry block of the evaluation
prompt, with content truncated to 300 characters. -/
def evalRetrievedLine (r : RetEntry) : String :=
  "ID:" ++ r.id ++ " Topic:" ++ r.topic ++ "\n" ++ r.content.take 300

/-- coach_service.py lines 109-113: the evaluation prompt. -/
def evalPrompt (question studentAnswer correctConcept : String)
    (relevant : List RetEntry) : String :=
  if relevant.isEmpty then
    "Evaluate this student answer.\nQuestion: " ++ question ++ "\nAnswer: " ++
      studentAnswer ++ "\nKey Concept: " ++ correctConcept ++
      "\nProvide a score and brief feedback."
  else
    "Retrieved documents:\n" ++ joinSep "\n" (relevant.map evalRetrievedLine) ++
      "\n\nEvaluate this student answer in the context of the retrieved documents.\nQuestion: " ++
      question ++ "\nAnswer: " ++ studentAnswer ++ "\nKey Concept: " ++
      correctConcept ++ "\nProvide a score and brief feedback citing any documents used."

/-- coach_service.py line 115: the single-user-turn message list of
evaluate_answer. -/
def evalMessages (question studentAnswer correctConcept : String)
    (relevant : List RetEntry) : List Message :=
  [⟨"user", .parts [.text (evalPrompt question studentAnswer correctConcept relevant)]⟩]

/-- coach_service.py lines 103-133: CoachService.evaluate_answer. The
retrieval call is wrapped in its own try/except and degrades to an empty
list; the AnswerRecord insert block is wrapped in a try/except that
swallows both a connection failure and an insert failure; the generation
call itself is not wrapped and a generation failure escapes. -/
def evaluateAnswerRaw (cfg : Config) (o : Oracle) (entries : List RetEntry)
    (embedOk : Bool) (currentUserId : Option String)
    (question studentAnswer correctConcept : String) (st : Store) :
    TryRes String :=
  match o.generateCall (evalMessages question studentAnswer correctConcept
      (if o.searchRaises then []
       else findRelevant cfg entries embedOk
         (if question = "" then correctConcept else question)
         (some cfg.TOP_K))) with
  | .err => .exn st
  | .ok resp =>
    match o.getSupabase with
    | .err => .ok resp st
    | .ok sup =>
      if sup then
        match currentUserId with
        | some uid =>
          match o.insertAnswer with
          | .err => .ok resp st
          | .ok _ =>
            .ok resp
              { st with answers := st.answers ++
                  [{ questionId := none, userId := uid,
                     userAnswer := studentAnswer, modelAnswer := resp,
                     grade := none, feedback := none }] }
        | none => .ok resp st
      else .ok resp st

/-- coach_service.py lines 32-71: CoachService.generate_explanation. When
no pre-fetched entries are supplied, retrieval is re-run and degrades to
an empty list on failure; the assembled messages are then sent to the
model. -/
def generateExplanation (cfg : Config) (o : Oracle) (entries : List RetEntry)
    (embedOk : Bool) (query : String) (relevant : List RetEntry)
    (image : Option String) : List Message × CallResult String :=
  let rel :=
    if relevant.isEmpty then
      (if o.searchRaises then []
       else findRelevant cfg entries embedOk query (some cfg.TOP_K))
    else relevant
  let msgs := buildMessages cfg query rel image
  (msgs, o.generateCall msgs)

/-- Closed form of the attachment rows created by a run of the upload loop
in which every upload succeeds: n rows, original indices starting at i,
store-minted ids starting at rid. -/
def mkUploadRows (cfg : Config) (o : Oracle) (uid : String)
    (cts : Option (List String)) : Nat → Nat → Nat → List AttachmentRow
  | 0, _, _ => []
  | n + 1, i, rid =>
    mkUploadRow cfg o uid cts i rid :: mkUploadRows cfg o uid cts n (i + 1) (rid + 1)

/-- Closed form of the same rows after a fully successful back-fill with
query id q. -/
def mkFilledRows (q : Nat) (cfg : Config) (o : Oracle) (uid : String)
    (cts : Option (List String)) : Nat → Nat → Nat → List AttachmentRow
  | 0, _, _ => []
  | n + 1, idx, rid =>
    fillRow q uid cts idx (mkUploadRow cfg o uid cts idx rid) ::
      mkFilledRows q cfg o uid cts n (idx + 1) (rid + 1)

/-- A concrete configuration for witnesses: the shipped defaults shape. -/
def cfg0 : Config :=
  { TOP_K := 3, MIN_PIXELS := 256, MAX_PIXELS := 1024,
    SUPABASE_STORAGE_BUCKET := "media", MODEL_NAME := "qwen",
    EMBED_MODEL_NAME := "embed-english-light-v3.0", PGVECTOR_DIMENSION := 384 }

/-- A second configuration agreeing with cfg0 on the pixel budget only. -/
def cfgAlt : Config :=
  { TOP_K := 7, MIN_PIXELS := 256, MAX_PIXELS := 1024,
    SUPABASE_STORAGE_BUCKET := "other", MODEL_NAME := "other",
    EMBED_MODEL_NAME := "other", PGVECTOR_DIMENSION := 2 }

/-- A configuration whose vector width is 2, for small embed examples. -/
def cfgDim2 : Config := { cfg0 with PGVECTOR_DIMENSION := 2 }

/-- The oracle in which every external call succeeds. -/
def oAllOk : Oracle :=
  { getSupabase := .ok true, upload := fun _ => .ok true,
    uploadPath := fun _ => "cafe", embedTexts := .ok (),
    insertUserQuery := .ok true, updateAttachment := fun _ => .ok (),
    addEmbedding := .ok (), insertAnswer := .ok (),
    insertGenerated := .ok true, searchRaises := false,
    generateCall := fun _ => .ok "feedback" }

/-- All calls succeed except the attachment back-fill updates. -/
def oUpdateErr : Oracle := { oAllOk with updateAttachment := fun _ => .err }

/-- All calls succeed except query embedding, which raises. -/
def oEmbedErr : Oracle := { oAllOk with embedTexts := .err }

/-- All calls succeed but the store connection is absent. -/
def oNoSup : Oracle := { oAllOk with getSupabase := .ok false }

/-- All calls succeed except the generated-question insert, which raises. -/
def oGenInsErr : Oracle := { oAllOk with insertGenerated := .err }

/-- All calls succeed except the answer-record insert, which raises. -/
def oInsAnsErr : Oracle := { oAllOk with insertAnswer := .err }

/-- The empty store. -/
def store0 : Store :=
  { attachments := [], userQueries := [], answers := [],
    generatedQuestions := [], embeddings := [], nextId := 0 }

/-- A concrete retrieved entry with similarity 0.91. -/
def e91 : RetEntry :=
  { id := "doc1", topic := "Arithmetic", content := "Two plus two equals four.",
    similarity := some (mkRat 91 100) }

/-- A concrete retrieved entry with similarity 0.77. -/
def e77 : RetEntry :=
  { id := "doc2", topic := "History", content := "Rome fell in 476.",
    similarity := some (mkRat 77 100) }

/-- A small unsorted entry list. -/
def entries0 : List RetEntry := [e77, e91]

/-- An available client: a key is set and the sdk constructed a client. -/
def cAvail : CohereClient :=
  { apiKey := some "key", model := "embed-english-light-v3.0", available := true }

/-- An unavailable client: no credential, so no client was constructed. -/
def cUnavail : CohereClient :=
  { apiKey := none, model := "embed-english-light-v3.0", available := false }

/-- The store after the successful answer write of the C10 witness run. -/
def stAnsW : Store :=
  { store0 with answers :=
      [{ questionId := none, userId := "u7", userAnswer := "four",
         modelAnswer := "feedback", grade := none, feedback := none }] }

/-- Helper: string append is associative. -/
theorem sappend_assoc (a b c : String) : a ++ b ++ c = a ++ (b ++ c) := by
  apply String.ext
  simp [String.data_append, List.append_assoc]

/-- Helper: the four-digit pad always has length 4. -/
theorem pad4_length (m : Nat) : (pad4 m).length = 4 := rfl

/-- Helper: the 4-decimal rendering always splits as an integer part, a
dot, and a fractional part of exactly 4 characters. -/
theorem fmt4_decomp (x : ℚ) : ∃ s t, fmt4 x = s ++ "." ++ t ∧ t.length = 4 := by
  unfold fmt4
  by_cases h : (⌊x * 10000 + 1/2⌋ : Int) < 0
  · refine ⟨"-" ++ toString ((⌊x * 10000 + 1/2⌋ : Int).natAbs / 10000),
      pad4 ((⌊x * 10000 + 1/2⌋ : Int).natAbs % 10000), ?_, pad4_length _⟩
    simp only [h, if_true, fmt4nat, sappend_assoc]
  · refine ⟨toString ((⌊x * 10000 + 1/2⌋ : Int).toNat / 10000),
      pad4 ((⌊x * 10000 + 1/2⌋ : Int).toNat % 10000), ?_, pad4_length _⟩
    simp only [h, if_false, fmt4nat]

/-- C1: for every configured target dimension and an available client, if
the provider returns a non-empty uniform-width vector sequence whose width
differs from the target, embed fails with DimensionMismatch; if the width
equals the target, embed returns the vectors unchanged. -/
theorem embed_dimension_check (c : CohereClient) (cfg : Config)
    (texts : List String) (v : List ℚ) (rest : List (List ℚ)) (W : Nat)
    (hav : c.available = true) (hW : ∀ u ∈ v :: rest, u.length = W) :
    (W ≠ effectiveDim cfg →
      c.embed cfg texts (v :: rest) =
        .error (.dimensionMismatch W (effectiveDim cfg))) ∧
    (W = effectiveDim cfg → c.embed cfg texts (v :: rest) = .ok (v :: rest)) := by
  have hv : v.length = W := hW v (List.mem_cons_self _ _)
  constructor
  · intro hne
    simp [CohereClient.embed, CohereClient.is_available, hav, hv, hne]
  · intro he
    simp [CohereClient.embed, CohereClient.is_available, hav, hv, he]

/-- Witness for C1: with target width 2 and provider vectors of width 2,
embed returns the vectors unchanged. -/
theorem embed_dimension_check_witness :
    CohereClient.embed cAvail cfgDim2 ["hi"] [[1, 2]] = .ok [[1, 2]] :=
  (embed_dimension_check cAvail cfgDim2 ["hi"] [1, 2] [] 2 rfl
    (by intro u hu; simp only [List.mem_singleton] at hu; subst hu; rfl)).2 rfl

/-- C9: when no credential or client is configured, embed fails with
ProviderUnavailable and never returns a result. -/
theorem embed_provider_unavailable (c : CohereClient) (cfg : Config)
    (texts : List String) (vecs : List (List ℚ)) (hna : c.available = false) :
    c.embed cfg texts vecs = .error .providerUnavailable ∧
    ∀ l, c.embed cfg texts vecs ≠ .ok l := by
  have h : c.embed cfg texts vecs = .error .providerUnavailable := by
    simp [CohereClient.embed, CohereClient.is_available, hna]
  exact ⟨h, fun l hl => by rw [h] at hl; exact Except.noConfusion hl⟩

/-- Witness for C9: the unavailable client fails with ProviderUnavailable. -/
theorem embed_provider_unavailable_witness :
    CohereClient.embed cUnavail cfg0 ["x"] [[1]] = .error .providerUnavailable :=
  (embed_provider_unavailable cUnavail cfg0 ["x"] [[1]] rfl).1

/-- C4: for every query, when embedding the query fails, find_relevant
returns the empty sequence rather than propagating the failure
(spec-modelled retrieval internals). -/
theorem find_relevant_embed_failure_empty (cfg : Config)
    (entries : List RetEntry) (query : String) (topK : Option Int) :
    findRelevant cfg entries false query topK = [] := by
  simp [findRelevant, knowledgeSearch]

/-- C7: prompt assembly is a pure function of the query, the retrieved
entries, the image and the pixel-budget configuration: any two
configurations agreeing on the pixel budget assemble the identical prompt
for identical inputs, so identical inputs always produce identical
prompts. -/
theorem prompt_assembly_deterministic (cfg cfg2 : Config) (query : String)
    (rel : List RetEntry) (image : Option String)
    (hmin : cfg.MIN_PIXELS = cfg2.MIN_PIXELS)
    (hmax : cfg.MAX_PIXELS = cfg2.MAX_PIXELS) :
    buildMessages cfg query rel image = buildMessages cfg2 query rel image := by
  cases image <;> simp [buildMessages, imageParts, hmin, hmax]

/-- Witness for C7: two configurations differing everywhere except the
pixel budget assemble the same prompt. -/
theorem prompt_assembly_deterministic_witness :
    buildMessages cfg0 "q" [e91] (some "img") =
      buildMessages cfgAlt "q" [e91] (some "img") :=
  prompt_assembly_deterministic cfg0 cfgAlt "q" [e91] (some "img") rfl rfl

/-- Counterexample to C5: for the supplied value top_k = 0, find_relevant
does not fail fast: Python `top_k or TOP_K` treats 0 as falsy, so the call
silently substitutes the configured default (here 3) and returns the same
non-empty result as an unsupplied top_k. -/
theorem find_relevant_topk_zero_counterexample :
    findRelevant cfg0 entries0 true "q" (some 0) =
      findRelevant cfg0 entries0 true "q" none ∧
    findRelevant cfg0 entries0 true "q" (some 0) = [e91, e77] := by
  constructor
  · rfl
  · decide

/-- C5 (amended): the configured default is substituted when top_k is not
supplied or equals 0; any nonzero top_k, including negative values, is
forwarded to the (spec-modelled) store search unchanged rather than
rejected; the result has at most top_k entries and is ordered by
descending similarity. -/
theorem find_relevant_topk_semantics (cfg : Config) (entries : List RetEntry)
    (embedOk : Bool) (query : String) (k : Int) (hk : k ≠ 0) :
    findRelevant cfg entries embedOk query none =
      knowledgeSearch entries embedOk query cfg.TOP_K ∧
    findRelevant cfg entries embedOk query (some 0) =
      knowledgeSearch entries embedOk query cfg.TOP_K ∧
    findRelevant cfg entries embedOk query (some k) =
      knowledgeSearch entries embedOk query k ∧
    (findRelevant cfg entries embedOk query (some k)).length ≤ k.toNat ∧
    List.Sorted simDescRel (findRelevant cfg entries embedOk query (some k)) := by
  have hpy : pyOrInt (some k) cfg.TOP_K = k := by simp [pyOrInt, hk]
  refine ⟨rfl, by simp [findRelevant, pyOrInt], by simp [findRelevant, hpy], ?_, ?_⟩
  · rw [findRelevant, hpy]
    cases embedOk
    · simp [knowledgeSearch]
    · simp only [knowledgeSearch, if_true]
      exact (List.length_take _ _).le.trans (min_le_left _ _)
  · rw [findRelevant, hpy]
    cases embedOk
    · simp [knowledgeSearch]
    · simp only [knowledgeSearch, if_true]
      exact List.Pairwise.sublist (List.take_sublist _ _)
        (List.sorted_insertionSort simDescRel entries)

/-- Witness for C5 (amended) at top_k = 2 on a two-entry store. -/
theorem find_relevant_topk_semantics_witness :
    findRelevant cfg0 entries0 true "q" (some 2) =
      knowledgeSearch entries0 true "q" 2 ∧
    (findRelevant cfg0 entries0 true "q" (some 2)).length ≤ 2 :=
  ⟨(find_relevant_topk_semantics cfg0 entries0 true "q" 2 (by decide)).2.2.1,
   (find_relevant_topk_semantics cfg0 entries0 true "q" 2 (by decide)).2.2.2.1⟩

/-- Helper: every element of a joined list occurs contiguously in the
join. -/
theorem joinSep_split (sep s : String) :
    ∀ l : List String, s ∈ l → ∃ a b, joinSep sep l = a ++ s ++ b := by
  intro l
  induction l with
  | nil => intro h; exact absurd h (List.not_mem_nil s)
  | cons x r ih =>
    intro h
    cases r with
    | nil =>
      rcases List.mem_singleton.mp h with rfl
      exact ⟨"", "", by simp [joinSep, String.empty_append, String.append_empty]⟩
    | cons y t =>
      rcases List.mem_cons.mp h with rfl | hmem
      · exact ⟨"", sep ++ joinSep sep (y :: t), by
          simp [joinSep, String.empty_append, sappend_assoc]⟩
      · rcases ih hmem with ⟨a, b, hab⟩
        exact ⟨x ++ sep ++ a, b, by simp [joinSep, hab, sappend_assoc]⟩

/-- Helper: the block of each retrieved entry occurs contiguously in the
user prompt. -/
theorem userPrompt_entry_split (q : String) (rel : List RetEntry)
    (e : RetEntry) (he : e ∈ rel) :
    ∃ pre post, userPrompt q rel = pre ++ entryLine e ++ post := by
  have hmem : entryLine e ∈ rel.map entryLine := List.mem_map_of_mem _ he
  rcases joinSep_split "\n" (entryLine e) (rel.map entryLine) hmem with ⟨a, b, hab⟩
  have hne : rel.isEmpty = false := by
    cases rel
    · exact absurd he (List.not_mem_nil _)
    · rfl
  refine ⟨"Retrieved documents:\n" ++ a,
    b ++ "\n\nQuestion: " ++ q ++ explTail, ?_⟩
  simp [userPrompt, retrievedSection, hne, hab, sappend_assoc]

/-- Counterexample to C6: with empty retrieval, the assembled user turn
does not contain the claimed literal marker; the marker the code emits is
the different text line, and the question text is present. -/
theorem prompt_marker_counterexample :
    strContainsSub (userPrompt "What is 2+2?" []) "no documents available" = false ∧
    strContainsSub (userPrompt "What is 2+2?" [])
      "Retrieved documents: none available." = true ∧
    strContainsSub (userPrompt "What is 2+2?" []) "What is 2+2?" = true := by
  exact ⟨rfl, rfl, rfl⟩

/-- C6 (amended): the assembled prompt is the system instruction plus a
user turn whose text lists every retrieved entry as an ID, Topic,
Similarity, Content block with the similarity formatted to 4 decimal
places, followed by the question text; when retrieval returned nothing
the user turn carries the marker text of the source, which is
"Retrieved documents: none available." rather than the claimed literal
"no documents available", together with the question text. -/
theorem prompt_assembly_structure (cfg : Config) (query : String)
    (image : Option String) (rel : List RetEntry) (e : RetEntry)
    (he : e ∈ rel) :
    buildMessages cfg query rel image =
      [⟨"system", .str systemPrompt⟩,
       ⟨"user", .parts (imageParts cfg image ++ [.text (userPrompt query rel)])⟩] ∧
    (∃ pre post, userPrompt query rel = pre ++ entryLine e ++ post) ∧
    (∀ x, e.similarity = some x →
      ∃ s t, simStr e.similarity = s ++ "." ++ t ∧ t.length = 4) ∧
    userPrompt query [] =
      "Retrieved documents: none available." ++ "\n\nQuestion: " ++ query ++ explTail := by
  refine ⟨rfl, userPrompt_entry_split query rel e he, ?_, rfl⟩
  intro x hx
  simpa [simStr, hx] using fmt4_decomp x

/-- Witness for C6 (amended) on a one-entry retrieval and the empty
retrieval marker. -/
theorem prompt_assembly_structure_witness :
    buildMessages cfg0 "What is 2+2?" [e91] none =
      [⟨"system", .str systemPrompt⟩,
       ⟨"user", .parts [.text (userPrompt "What is 2+2?" [e91])]⟩] ∧
    userPrompt "What is 2+2?" [] =
      "Retrieved documents: none available." ++ "\n\nQuestion: " ++
        "What is 2+2?" ++ explTail :=
  ⟨(prompt_assembly_structure cfg0 "What is 2+2?" none [e91] e91
      (List.mem_singleton.mpr rfl)).1,
   (prompt_assembly_structure cfg0 "What is 2+2?" none [e91] e91
      (List.mem_singleton.mpr rfl)).2.2.2⟩

/-- Counterexample to C8: a store connection and an authenticated
principal both exist, yet no AnswerRecord is written, because the insert
itself raises and the try/except swallows it; the feedback is still
returned. This refutes the claimed if-and-only-if. -/
theorem evaluate_answer_iff_counterexample :
    evaluateAnswerRaw cfg0 oInsAnsErr [] true (some "u7") "q" "four"
      "addition" store0 = .ok "feedback" store0 := rfl

/-- C8 (amended): evaluate_answer writes an AnswerRecord exactly when a
store connection and an authenticated principal both exist and the insert
itself succeeds; when the principal or the connection is absent no record
is written and no error is raised; whenever generation succeeds its
feedback text is returned to the caller in every case. -/
theorem evaluate_answer_write_conditions (cfg : Config) (o o2 : Oracle)
    (entries : List RetEntry) (embedOk : Bool) (uid question sa cc : String)
    (st : Store) (resp resp2 : String)
    (hgen : ∀ m, o.generateCall m = .ok resp)
    (hsup : o.getSupabase = .ok true)
    (hins : o.insertAnswer = .ok ())
    (hgen2 : ∀ m, o2.generateCall m = .ok resp2)
    (hsup2 : o2.getSupabase = .ok false) :
    (evaluateAnswerRaw cfg o entries embedOk (some uid) question sa cc st =
      .ok resp { st with answers := st.answers ++
        [{ questionId := none, userId := uid, userAnswer := sa,
           modelAnswer := resp, grade := none, feedback := none }] }) ∧
    (evaluateAnswerRaw cfg o entries embedOk none question sa cc st =
      .ok resp st) ∧
    (evaluateAnswerRaw cfg o2 entries embedOk (some uid) question sa cc st =
      .ok resp2 st) := by
  refine ⟨?_, ?_, ?_⟩ <;>
    simp [evaluateAnswerRaw, hgen, hgen2, hsup, hsup2, hins]

/-- Witness for C8 (amended): with every call succeeding the record is
written; with no connection nothing is written; feedback returned in
both runs. -/
theorem evaluate_answer_write_conditions_witness :
    evaluateAnswerRaw cfg0 oAllOk [] true (some "u7") "q" "four" "addition"
      store0 = .ok "feedback" stAnsW ∧
    evaluateAnswerRaw cfg0 oNoSup [] true (some "u7") "q" "four" "addition"
      store0 = .ok "feedback" store0 :=
  ⟨(evaluate_answer_write_conditions cfg0 oAllOk oNoSup [] true "u7" "q"
      "four" "addition" store0 "feedback" "feedback"
      (fun _ => rfl) rfl rfl (fun _ => rfl) rfl).1,
   (evaluate_answer_write_conditions cfg0 oAllOk oNoSup [] true "u7" "q"
      "four" "addition" store0 "feedback" "feedback"
      (fun _ => rfl) rfl rfl (fun _ => rfl) rfl).2.2⟩

/-- C10: whenever evaluate_answer persists a record, the persisted row has
null question_id, grade and feedback, the authenticated principal as its
user id, and exactly the returned generated text as its model answer. -/
theorem answer_record_fields (cfg : Config) (o : Oracle)
    (entries : List RetEntry) (embedOk : Bool) (user : Option String)
    (question sa cc : String) (st st2 : Store) (r : String)
    (hres : evaluateAnswerRaw cfg o entries embedOk user question sa cc st =
      .ok r st2) :
    st2.answers = st.answers ∨
    ∃ uid, user = some uid ∧
      st2.answers = st.answers ++
        [{ questionId := none, userId := uid, userAnswer := sa,
           modelAnswer := r, grade := none, feedback := none }] := by
  unfold evaluateAnswerRaw at hres
  cases hgc : o.generateCall (evalMessages question sa cc
      (if o.searchRaises then []
       else findRelevant cfg entries embedOk
         (if question = "" then cc else question) (some cfg.TOP_K))) with
  | err =>
    rw [hgc] at hres
    exact absurd hres (by simp)
  | ok resp =>
    rw [hgc] at hres
    cases hgs : o.getSupabase with
    | err =>
      rw [hgs] at hres
      cases hres
      exact Or.inl rfl
    | ok sup =>
      rw [hgs] at hres
      cases sup with
      | false =>
        simp only [Bool.false_eq_true, if_false] at hres
        cases hres
        exact Or.inl rfl
      | true =>
        simp only [if_true] at hres
        cases user with
        | none =>
          cases hres
          exact Or.inl rfl
        | some uid =>
          cases hia : o.insertAnswer with
          | err =>
            rw [hia] at hres
            cases hres
            exact Or.inl rfl
          | ok a =>
            rw [hia] at hres
            cases hres
            exact Or.inr ⟨uid, rfl, rfl⟩

/-- Witness for C10: a concrete fully successful run persists exactly the
expected row. -/
theorem answer_record_fields_witness :
    stAnsW.answers = store0.answers ∨
    ∃ uid, (some "u7" : Option String) = some uid ∧
      stAnsW.answers = store0.answers ++
        [{ questionId := none, userId := uid, userAnswer := "four",
           modelAnswer := "feedback", grade := none, feedback := none }] :=
  answer_record_fields cfg0 oAllOk [] true (some "u7") "q" "four" "addition"
    store0 stAnsW "feedback" rfl

/-- Helper: an update keyed on an id absent from a list leaves it
unchanged. -/
theorem map_if_id_eq_self (aid : Nat) (g : AttachmentRow → AttachmentRow) :
    ∀ l : List AttachmentRow, (∀ r ∈ l, r.id ≠ aid) →
      l.map (fun r => if r.id = aid then g r else r) = l := by
  intro l
  induction l with
  | nil => intro _; rfl
  | cons x xs ih =>
    intro h
    have hx : x.id ≠ aid := h x (List.mem_cons_self _ _)
    simp only [List.map_cons, if_neg hx]
    rw [ih fun r hr => h r (List.mem_cons_of_mem _ hr)]

/-- Helper: ids of the closed-form upload rows are at least the starting
id. -/
theorem mkUploadRows_id_lb (cfg : Config) (o : Oracle) (uid : String)
    (cts : Option (List String)) :
    ∀ (n i rid : Nat) (r : AttachmentRow),
      r ∈ mkUploadRows cfg o uid cts n i rid → rid ≤ r.id := by
  intro n
  induction n with
  | zero => intro i rid r h; simp [mkUploadRows] at h
  | succ m ih =>
    intro i rid r h
    rcases List.mem_cons.mp h with rfl | h2
    · exact le_refl _
    · exact le_trans (Nat.le_succ rid) (ih (i + 1) (rid + 1) r h2)

/-- Helper: a fully successful run of the upload loop creates exactly the
closed-form rows, with consecutive fresh ids returned in order. -/
theorem runUploads_all_ok (cfg : Config) (o : Oracle) (uid : String)
    (cts : Option (List String)) :
    ∀ (images : List String) (i : Nat) (st : Store),
      (∀ k, k < images.length → o.upload (i + k) = .ok true) →
      runUploads cfg o uid cts images i st =
        .ok (List.range' st.nextId images.length)
          { st with attachments := st.attachments ++
                                     mkUploadRows cfg o uid cts images.length i st.nextId,
                    nextId := st.nextId + images.length } := by
  intro images
  induction images with
  | nil =>
    intro i st _
    simp [runUploads, mkUploadRows, List.range']
  | cons b rest ih =>
    intro i st h
    have h0 : o.upload i = .ok true := by simpa using h 0 (Nat.succ_pos _)
    have hrest : ∀ k, k < rest.length → o.upload (i + 1 + k) = .ok true := by
      intro k hk
      have h2 := h (k + 1) (by simpa using Nat.succ_lt_succ hk)
      have he : i + (k + 1) = i + 1 + k := by omega
      rwa [he] at h2
    simp only [runUploads, h0]
    rw [ih (i + 1) _ hrest]
    have hn : st.nextId + 1 + rest.length = st.nextId + (rest.length + 1) := by
      omega
    simp [mkUploadRows, List.range', hn, List.append_assoc]

/-- Helper: a run of the upload loop that returns normally encountered no
raising upload in its index range. -/
theorem runUploads_ok_no_err (cfg : Config) (o : Oracle) (uid : String)
    (cts : Option (List String)) :
    ∀ (images : List String) (i : Nat) (st : Store) (ids : List Nat)
      (st2 : Store),
      runUploads cfg o uid cts images i st = .ok ids st2 →
      ∀ k, k < images.length → o.upload (i + k) ≠ .err := by
  intro images
  induction images with
  | nil => intro i st ids st2 _ k hk; exact absurd hk (by simp)
  | cons b rest ih =>
    intro i st ids st2 hok k hk
    cases hu : o.upload i with
    | err => rw [runUploads, hu] at hok; exact absurd hok (by simp)
    | ok bb =>
      cases k with
      | zero => rw [Nat.add_zero, hu]; exact fun he => CallResult.noConfusion he
      | succ k2 =>
        have hk2 : k2 < rest.length := by simpa using Nat.lt_of_succ_lt_succ hk
        have he : i + (k2 + 1) = i + 1 + k2 := by omega
        rw [he]
        cases bb with
        | false =>
          simp only [runUploads, hu] at hok
          exact ih (i + 1) st ids st2 hok k2 hk2
        | true =>
          simp only [runUploads, hu] at hok
          cases hrec : runUploads cfg o uid cts rest (i + 1)
              { st with attachments := st.attachments ++
                                         [mkUploadRow cfg o uid cts i st.nextId],
                        nextId := st.nextId + 1 } with
          | ok ids3 st3 => exact ih (i + 1) _ ids3 st3 hrec k2 hk2
          | exn st3 => rw [hrec] at hok; exact absurd hok (by simp)

/-- Helper: a fully successful back-fill pass over freshly created rows
(with ids starting at rid, all pre-existing ids below rid) rewrites
exactly those rows to their filled form, in order. -/
theorem backfillAll_all_ok (cfg : Config) (o : Oracle) (q : Nat)
    (uid : String) (cts : Option (List String)) :
    ∀ (n idx rid : Nat) (own : List AttachmentRow) (st : Store),
      st.attachments = own ++ mkUploadRows cfg o uid cts n idx rid →
      (∀ r ∈ own, r.id < rid) →
      (∀ t, t < n → o.updateAttachment (idx + t) = .ok ()) →
      backfillAll o q uid cts (List.range' rid n) idx st =
        { st with attachments := own ++ mkFilledRows q cfg o uid cts n idx rid } := by
  intro n
  induction n with
  | zero =>
    intro idx rid own st hatt _ _
    have h0 : st.attachments = own := by simpa [mkUploadRows] using hatt
    simp [backfillAll, List.range', mkFilledRows, ← h0]
  | succ m ih =>
    intro idx rid own st hatt hown hupd
    have hu0 : o.updateAttachment (idx + 0) = .ok () := hupd 0 (Nat.succ_pos m)
    rw [Nat.add_zero] at hu0
    have hrange : List.range' rid (m + 1) = rid :: List.range' (rid + 1) m := rfl
    rw [hrange]
    simp only [backfillAll, hu0]
    have htail : ∀ r ∈ mkUploadRows cfg o uid cts m (idx + 1) (rid + 1),
        r.id ≠ rid := by
      intro r hr
      have := mkUploadRows_id_lb cfg o uid cts m (idx + 1) (rid + 1) r hr
      omega
    have hmap : st.attachments.map
        (fun r => if r.id = rid then fillRow q uid cts idx r else r) =
        (own ++ [fillRow q uid cts idx (mkUploadRow cfg o uid cts idx rid)]) ++
          mkUploadRows cfg o uid cts m (idx + 1) (rid + 1) := by
      rw [hatt, List.map_append]
      rw [map_if_id_eq_self rid _ own (fun r hr => Nat.ne_of_lt (hown r hr))]
      simp only [mkUploadRows, List.map_cons]
      rw [map_if_id_eq_self rid _ _ htail]
      have hid : (mkUploadRow cfg o uid cts idx rid).id = rid := rfl
      rw [if_pos hid]
      simp [List.append_assoc]
    rw [hmap]
    have hown2 : ∀ r ∈ own ++
        [fillRow q uid cts idx (mkUploadRow cfg o uid cts idx rid)],
        r.id < rid + 1 := by
      intro r hr
      rcases List.mem_append.mp hr with h1 | h2
      · exact Nat.lt_succ_of_lt (hown r h1)
      · rcases List.mem_singleton.mp h2 with rfl
        exact Nat.lt_succ_self rid
    have hupd2 : ∀ t, t < m → o.updateAttachment (idx + 1 + t) = .ok () := by
      intro t ht
      have h2 := hupd (t + 1) (by omega)
      have he : idx + (t + 1) = idx + 1 + t := by omega
      rwa [he] at h2
    rw [ih (idx + 1) (rid + 1)
      (own ++ [fillRow q uid cts idx (mkUploadRow cfg o uid cts idx rid)]) _ rfl
      hown2 hupd2]
    simp [mkFilledRows, List.append_assoc]

/-- Helper: the i-th filled row, in closed form. -/
theorem mkFilledRows_get (q : Nat) (cfg : Config) (o : Oracle) (uid : String)
    (cts : Option (List String)) :
    ∀ (n idx rid i : Nat), i < n →
      (mkFilledRows q cfg o uid cts n idx rid)[i]? =
        some (fillRow q uid cts (idx + i)
          (mkUploadRow cfg o uid cts (idx + i) (rid + i))) := by
  intro n
  induction n with
  | zero => intro idx rid i hi; exact absurd hi (Nat.not_lt_zero i)
  | succ m ih =>
    intro idx rid i hi
    cases i with
    | zero => simp [mkFilledRows]
    | succ j =>
      have hj : j < m := by omega
      simp only [mkFilledRows, List.getElem?_cons_succ]
      rw [ih (idx + 1) (rid + 1) j hj]
      have e1 : idx + 1 + j = idx + (j + 1) := by omega
      have e2 : rid + 1 + j = rid + (j + 1) := by omega
      rw [e1, e2]

/-- Counterexample to C2: a call with one attachment returns the non-null
query id 1, yet the attachment row still has a null query_id, because the
back-fill update raised and the inner try/except swallowed the failure
while the call still returned the id. -/
theorem store_user_query_linkage_counterexample :
    (storeUserQuery cfg0 oUpdateErr "u1" "hello" ["img"] none store0).fst =
      some 1 ∧
    ((storeUserQuery cfg0 oUpdateErr "u1" "hello" ["img"] none
        store0).snd.attachments.map AttachmentRow.queryId) = [none] :=
  ⟨rfl, rfl⟩

/-- C2 (amended): when every upload and every back-fill update succeeds
(and the embed, insert and embedding-index calls succeed), store_user_query
with N attachments returns a non-null id and appends exactly N attachment
rows, each carrying that query id and a metadata index equal to its
original positional index; the rows were created by the uploads with a
null query_id first and back-filled after the UserQuery insert. -/
theorem store_user_query_linkage (cfg : Config) (o : Oracle) (uid tq : String)
    (images : List String) (cts : Option (List String)) (st : Store)
    (hwf : ∀ r ∈ st.attachments, r.id < st.nextId)
    (hup : ∀ i, i < images.length → o.upload i = .ok true)
    (hbf : ∀ i, i < images.length → o.updateAttachment i = .ok ())
    (hemb : o.embedTexts = .ok ())
    (hsup : o.getSupabase = .ok true)
    (hins : o.insertUserQuery = .ok true)
    (hadd : o.addEmbedding = .ok ()) :
    (storeUserQuery cfg o uid tq images cts st).fst =
      some (st.nextId + images.length) ∧
    (storeUserQuery cfg o uid tq images cts st).snd.attachments =
      st.attachments ++ mkFilledRows (st.nextId + images.length) cfg o uid cts
        images.length 0 st.nextId ∧
    (∀ i, i < images.length →
      ∃ r, (mkFilledRows (st.nextId + images.length) cfg o uid cts
          images.length 0 st.nextId)[i]? = some r ∧
        r.queryId = some (st.nextId + images.length) ∧
        r.metadata.map AttachMeta.index = some i) := by
  have hrun := runUploads_all_ok cfg o uid cts images 0 st
    (fun k hk => by simpa using hup k hk)
  have hbf0 : ∀ t, t < images.length → o.updateAttachment (0 + t) = .ok () :=
    fun t ht => by simpa using hbf t ht
  refine ⟨?_, ?_, ?_⟩
  · unfold storeUserQuery storeUserQueryRaw
    simp only [hrun, hemb, hsup, insertQueryPhase, hins, if_true]
    rw [backfillAll_all_ok cfg o (st.nextId + images.length) uid cts
      images.length 0 st.nextId st.attachments _ rfl hwf hbf0]
    simp only [hadd]
  · unfold storeUserQuery storeUserQueryRaw
    simp only [hrun, hemb, hsup, insertQueryPhase, hins, if_true]
    rw [backfillAll_all_ok cfg o (st.nextId + images.length) uid cts
      images.length 0 st.nextId st.attachments _ rfl hwf hbf0]
    simp only [hadd]
  · intro i hi
    refine ⟨fillRow (st.nextId + images.length) uid cts (0 + i)
      (mkUploadRow cfg o uid cts (0 + i) (st.nextId + i)),
      mkFilledRows_get (st.nextId + images.length) cfg o uid cts
        images.length 0 st.nextId i hi, ?_, ?_⟩
    · rfl
    · simp [fillRow]

/-- Witness for C2 (amended): a fully successful two-attachment run. -/
theorem store_user_query_linkage_witness :
    (storeUserQuery cfg0 oAllOk "u1" "hello" ["a", "b"] none store0).fst =
      some 2 ∧
    (∃ r, (mkFilledRows 2 cfg0 oAllOk "u1" none 2 0 0)[0]? = some r ∧
      r.queryId = some 2 ∧ r.metadata.map AttachMeta.index = some 0) :=
  ⟨(store_user_query_linkage cfg0 oAllOk "u1" "hello" ["a", "b"] none store0
      (fun r h => absurd h (List.not_mem_nil r)) (fun _ _ => rfl)
      (fun _ _ => rfl) rfl rfl rfl rfl).1,
   (store_user_query_linkage cfg0 oAllOk "u1" "hello" ["a", "b"] none store0
      (fun r h => absurd h (List.not_mem_nil r)) (fun _ _ => rfl)
      (fun _ _ => rfl) rfl rfl rfl rfl).2.2 0 (by decide)⟩

/-- Counterexample to C3: store_generated_question has no exception
handler of its own, so with a store connection present a raising insert
escapes to the caller as an exception instead of a null return. -/
theorem store_generated_question_raises_counterexample :
    storeGeneratedQuestionRaw oGenInsErr none none "q" "m" store0 =
      .exn store0 := rfl

/-- C3 (amended): store_user_query returns null, not an exception, on any
failure in its pipeline (a raising upload, embed, connection lookup,
insert or embedding-index write), and store_generated_question is a no-op
returning null when no store connection exists; however, when a connection
exists, a raising insert inside store_generated_question propagates to its
caller. -/
theorem recorder_error_absorption (cfg : Config) (o o2 : Oracle)
    (uid tq : String) (images : List String) (cts : Option (List String))
    (st st2 : Store) (lessonId : Option String) (queryId : Option Nat)
    (qt am : String)
    (hfail : o.embedTexts = .err ∨ o.getSupabase = .err ∨
      o.insertUserQuery = .err ∨ o.addEmbedding = .err ∨
      (∃ k, k < images.length ∧ o.upload k = .err))
    (hsup2 : o2.getSupabase = .ok false) :
    (storeUserQuery cfg o uid tq images cts st).fst = none ∧
    storeGeneratedQuestionRaw o2 lessonId queryId qt am st2 = .ok none st2 := by
  constructor
  · unfold storeUserQuery storeUserQueryRaw
    cases hru : runUploads cfg o uid cts images 0 st with
    | exn st1 => simp [hru]
    | ok ids st1 =>
      cases hge : o.embedTexts with
      | err => simp [hru, hge]
      | ok u =>
        cases hgs : o.getSupabase with
        | err => simp [hru, hge, hgs]
        | ok sup =>
          cases sup with
          | false => simp [hru, hge, hgs, insertQueryPhase]
          | true =>
            cases hiq : o.insertUserQuery with
            | err => simp [hru, hge, hgs, hiq, insertQueryPhase]
            | ok bq =>
              cases bq with
              | false => simp [hru, hge, hgs, hiq, insertQueryPhase]
              | true =>
                cases had : o.addEmbedding with
                | err => simp [hru, hge, hgs, hiq, had, insertQueryPhase]
                | ok a =>
                  exfalso
                  rcases hfail with h | h | h | h | ⟨k, hk, hke⟩
                  · rw [h] at hge; exact CallResult.noConfusion hge
                  · rw [h] at hgs; exact CallResult.noConfusion hgs
                  · rw [h] at hiq; exact CallResult.noConfusion hiq
                  · rw [h] at had; exact CallResult.noConfusion had
                  · exact (runUploads_ok_no_err cfg o uid cts images 0 st ids
                      st1 hru k hk) (by simpa using hke)
  · simp [storeGeneratedQuestionRaw, hsup2]

/-- Witness for C3 (amended): a raising embed makes store_user_query
return null, and an absent connection makes store_generated_question a
null-returning no-op. -/
theorem recorder_error_absorption_witness :
    (storeUserQuery cfg0 oEmbedErr "u1" "hello" [] none store0).fst = none ∧
    storeGeneratedQuestionRaw oNoSup none none "practice" "qwen" store0 =
      .ok none store0 :=
  recorder_error_absorption cfg0 oEmbedErr oNoSup "u1" "hello" [] none store0
    store0 none none "practice" "qwen" (Or.inl rfl) rfl
